import Mathlib

/-!
# Verification of `watchdog-host` (bandwidth accounting and alert dispatch)

Shallow embedding of `src/watchdog_host/bandwidth.py` and
`src/watchdog_host/notifier.py` in Lean 4, together with theorems settling
the frozen claims about the monthly-bandwidth watchdog.

Modelling conventions:
* Python integers are unbounded, so they are embedded as `Int`
  (byte counters produced by the sampler are non-negative, but values loaded
  from the persisted JSON file are arbitrary integers).
* Python floats appearing in the persisted file are embedded as the exact
  rational value of the IEEE-754 double (`Rat`); multiplying a double by
  `1024 ** 3 = 2^30` only shifts the exponent and is exact, so rational
  arithmetic is faithful for the one float expression the claims touch,
  `int(loaded["used_gb"] * (1024 ** 3))`.
* A JSON object is an association list `List (String × JVal)` in insertion
  order, mirroring Python dict semantics (assignment of a fresh key appends,
  `del` removes).
* Wall-clock times (`time.time()`) are embedded as `Int` seconds; each call
  into the notifier receives the current time as an argument.
* External transport calls (SMTP session, HTTP POST) are embedded as
  outcome parameters describing what the outside world would answer, and the
  embedded functions report whether the transport was actually invoked.
-/

namespace WatchdogHost

/-- A JSON value as stored in the persisted data file (`bandwidth_usage.json`).
Only the shapes the program reads or writes are represented: integers,
floats (as exact rationals), booleans and `null`. -/
inductive JVal where
  | jint (n : Int)
  | jrat (q : Rat)
  | jbool (b : Bool)
  | jnull
  deriving DecidableEq, Repr

/-- A JSON object: key/value pairs in insertion order (Python dict). -/
abbrev Dict := List (String × JVal)

/-- Python `k in d`. -/
def hasKey : Dict → String → Bool
  | [], _ => false
  | p :: rest, k => (p.1 == k) || hasKey rest k

/-- Python `d[k]` / `d.get(k)`: the binding of `k`, if any (dict keys are
unique, so the first match is the binding). -/
def getKey : Dict → String → Option JVal
  | [], _ => none
  | p :: rest, k => if p.1 == k then some p.2 else getKey rest k

/-- Python `d[k] = v`: overwrite in place when the key exists, otherwise
append (dicts preserve insertion order). -/
def setKey (d : Dict) (k : String) (v : JVal) : Dict :=
  if hasKey d k then
    d.map (fun p => if p.1 == k then (k, v) else p)
  else
    d ++ [(k, v)]

/-- Python `del d[k]` (dict keys are unique; removing every binding of `k`
coincides with removing the one binding). -/
def delKey : Dict → String → Dict
  | [], _ => []
  | p :: rest, k => if p.1 == k then delKey rest k else p :: delKey rest k

/-- Truncation toward zero: the conversion Python `int()` applies to a
float (or exact rational). -/
def ratTrunc (q : Rat) : Int :=
  if q < 0 then -⌊-q⌋ else ⌊q⌋

/-- Python 3 `round()` on an exact rational value: nearest integer, ties to
even (banker's rounding). Used to state the spec's `round(used_gb * 1024^3)`
side of claim C9; the source itself uses `int()`. -/
def pyRound (q : Rat) : Int :=
  if q - (⌊q⌋ : Rat) < 1/2 then ⌊q⌋
  else if (1/2 : Rat) < q - (⌊q⌋ : Rat) then ⌊q⌋ + 1
  else if ⌊q⌋ % 2 = 0 then ⌊q⌋ else ⌊q⌋ + 1

/-- The in-memory usage record the monitor loop works with
(fields of the persisted JSON record, `bandwidth.py` lines 61–66). -/
structure UsageRecord where
  month : Int
  used_bytes : Int
  last_total_bytes : Option Int
  alert_sent : Bool
  deriving DecidableEq, Repr

/-- JSON encoding of `last_total_bytes` (an integer or `null`). -/
def jOfOption : Option Int → JVal
  | some n => JVal.jint n
  | none => JVal.jnull

/-- The JSON object `save_data` persists for a record (`json.dump(data, f)`:
the dict holding exactly the four fields, in insertion order). -/
def recordToDict (r : UsageRecord) : Dict :=
  [("month", JVal.jint r.month),
   ("used_bytes", JVal.jint r.used_bytes),
   ("last_total_bytes", jOfOption r.last_total_bytes),
   ("alert_sent", JVal.jbool r.alert_sent)]

/-- Reading the four fields of a loaded dict the way `main` accesses them
(`data.get("month")`, `data["used_bytes"]`, `data["last_total_bytes"]`,
`data.get("alert_sent")`); `none` when a field is missing or has an
unexpected shape. -/
def dictToRecord (d : Dict) : Option UsageRecord :=
  match getKey d "month", getKey d "used_bytes",
        getKey d "last_total_bytes", getKey d "alert_sent" with
  | some (.jint m), some (.jint u), some (.jint n), some (.jbool a) =>
      some ⟨m, u, some n, a⟩
  | some (.jint m), some (.jint u), some .jnull, some (.jbool a) =>
      some ⟨m, u, none, a⟩
  | _, _, _, _ => none

/-- State of the persisted data file as `load_data` encounters it. -/
inductive FileState where
  | absent
  | unreadable
  | found (d : Dict)

/-- The fresh zero-state record `load_data` builds when the file is absent
or unreadable (`bandwidth.py` lines 61–66). -/
def freshRecordDict (currentMonth : Int) : Dict :=
  [("month", JVal.jint currentMonth),
   ("used_bytes", JVal.jint 0),
   ("last_total_bytes", JVal.jnull),
   ("alert_sent", JVal.jbool false)]

/-- Python `int(v * (1024 ** 3))` applied to the JSON value stored under
`used_gb`: exact for an int, truncating for a float; a Python bool is an
int (`True == 1`); `None * int` raises `TypeError` (`none` here, caught by
`load_data`'s `except`). -/
def usedGbToBytes : JVal → Option Int
  | .jint n => some (n * 1073741824)
  | .jrat q => some (ratTrunc (q * 1073741824))
  | .jbool b => some ((if b then (1 : Int) else 0) * 1073741824)
  | .jnull => none

/-- Embedding of `load_data` (`bandwidth.py` lines 48–66): on a readable file, migrate a
legacy `used_gb` field to `used_bytes` (when no `used_bytes` key exists) and
drop it; an absent file, an unreadable file, or an exception during the
migration yields the fresh zero-state record. -/
def load_data (fs : FileState) (currentMonth : Int) : Dict :=
  match fs with
  | .absent => freshRecordDict currentMonth
  | .unreadable => freshRecordDict currentMonth
  | .found d =>
      if hasKey d "used_gb" && !hasKey d "used_bytes" then
        match getKey d "used_gb" with
        | some v =>
            match usedGbToBytes v with
            | some n => delKey (setKey d "used_bytes" (JVal.jint n)) "used_gb"
            | none => freshRecordDict currentMonth
        | none => freshRecordDict currentMonth
      else d

/-- Byte counters of one interface as reported by
`psutil.net_io_counters(pernic=True)`: `(bytes_recv, bytes_sent)`. -/
abbrev Counters := List (String × (Nat × Nat))

/-- Embedding of `get_total_bytes` (`bandwidth.py` lines 80–87): sum `bytes_recv +
bytes_sent` over the configured interfaces that are present in the counter
map; absent interfaces are skipped. -/
def get_total_bytes (interfaces : List String) (counters : Counters) : Nat :=
  interfaces.foldl
    (fun total iface =>
      match (counters.find? (fun p => p.1 == iface)).map Prod.snd with
      | some c => total + (c.1 + c.2)
      | none => total)
    0

/-- One accounting step of the monitor loop (`bandwidth.py` lines 145–166):
month rollover resets the record and re-baselines; otherwise a strictly
positive delta against `last_total_bytes` is added to `used_bytes`, and
`last_total_bytes` is unconditionally set to the current sample. -/
def tick (data : UsageRecord) (currentMonth : Int) (sample : Int) : UsageRecord :=
  if data.month ≠ currentMonth then
    { month := currentMonth
      used_bytes := 0
      last_total_bytes := some sample
      alert_sent := false }
  else
    let used :=
      match data.last_total_bytes with
      | some last => if sample - last > 0 then data.used_bytes + (sample - last) else data.used_bytes
      | none => data.used_bytes
    { data with used_bytes := used, last_total_bytes := some sample }

/-- Running the accounting step over a sequence of samples (one per tick),
with a fixed current month. -/
def runTicks (data : UsageRecord) (currentMonth : Int) (samples : List Int) : UsageRecord :=
  samples.foldl (fun d s => tick d currentMonth s) data

/-- Sum of the strictly positive differences between consecutive samples,
starting from the baseline `base`. -/
def posDeltas (base : Int) : List Int → Int
  | [] => 0
  | s :: rest => (if base < s then s - base else 0) + posDeltas s rest

/-- Outcome of the warning/exceeded checks of one monitor-loop iteration. -/
structure AlertOutcome where
  warnFired : Bool
  exceededFired : Bool
  alertSentAfter : Bool
  deriving DecidableEq, Repr

/-- The alert section of the monitor loop (`bandwidth.py` lines 173–206):
first the warning check (`used_bytes >= warn_threshold and not alert_sent`,
setting `alert_sent = True` when it fires), then — independently — the
exceeded check (`used_bytes >= cap_bytes`), which persists, notifies and
stops. -/
def alertStep (used_bytes cap_bytes warn_threshold : Int) (alert_sent : Bool) : AlertOutcome :=
  let warnFired := decide (warn_threshold ≤ used_bytes) && !alert_sent
  let alertSentAfter := if warnFired then true else alert_sent
  let exceededFired := decide (cap_bytes ≤ used_bytes)
  ⟨warnFired, exceededFired, alertSentAfter⟩

/-! ## Notification dispatcher (`notifier.py`) -/

/-- The per-channel last-send timestamps held by `WatchdogNotifier`
(`self.cooldown_tracker`, initialised to `0` for every channel). -/
structure CooldownTracker where
  email : Int
  dingtalk : Int
  wecom : Int
  deriving DecidableEq, Repr

/-- The tracker a freshly constructed notifier starts with. -/
def initialTracker : CooldownTracker := ⟨0, 0, 0⟩

/-- Embedding of `WatchdogNotifier._can_send` (`notifier.py` lines 39–52): the channel is
enabled and at least `cooldown` seconds (`cfg.get('cooldown', 3600)`) have
passed since the channel's recorded last send. -/
def can_send (enabled : Bool) (cooldown : Option Int) (last now : Int) : Bool :=
  enabled && decide (cooldown.getD 3600 ≤ now - last)

/-- The uncaught exception a send path can raise (a missing mandatory
config key accessed with `cfg[...]` outside the `try` block). -/
inductive PyExn where
  | keyError
  deriving DecidableEq, Repr

/-- What an HTTP POST to a webhook answers: a parsed JSON body whose
`errcode` field is read with `result.get('errcode')` (`none` when missing),
or an exception raised by `requests.post` / `resp.json()` (caught). -/
inductive HttpOutcome where
  | resp (errcode : Option Int)
  | exn
  deriving DecidableEq, Repr

/-- Result of one channel's send function: the Python return value, whether
the transport was actually invoked (the `try` block entered), and the
notifier's cooldown tracker afterwards. -/
structure SendResult where
  retval : Bool
  transportCalled : Bool
  tracker : CooldownTracker
  deriving DecidableEq, Repr

/-- The `notify.email` config section, restricted to the keys that steer
control flow. `from_addr` and `to_addrs` are accessed with `cfg[...]`
before the `try` block, so their absence raises; the SMTP credentials are
accessed inside the `try` block, so their absence is folded into the
transport outcome. The message template is assumed to use only the
`{message}` placeholder, so rendering never raises. -/
structure EmailCfg where
  enabled : Bool
  cooldown : Option Int
  from_addr : Option String
  to_addrs : Option (List String)

/-- The `notify.dingtalk` config section: `access_token` is accessed with
`cfg['access_token']` before the `try` block, `secret` with `cfg.get`. -/
structure DingtalkCfg where
  enabled : Bool
  cooldown : Option Int
  access_token : Option String
  secret : Option String

/-- The `notify.wecom` config section: `webhook_key` is read with
`cfg.get`, and a missing or empty key makes the send return `False`
without raising. -/
structure WecomCfg where
  enabled : Bool
  cooldown : Option Int
  webhook_key : Option String

/-- Embedding of `WatchdogNotifier.send_email` (`notifier.py` lines 58–82).
`transportOk` abstracts the whole `try` block (SMTP connect, STARTTLS,
login, send): `true` means it ran to completion, `false` that some step
raised (caught, logged, channel reports failure). -/
def send_email (cfg : EmailCfg) (tr : CooldownTracker) (now : Int)
    (transportOk : Bool) : Except PyExn SendResult :=
  if !(cfg.enabled && can_send cfg.enabled cfg.cooldown tr.email now) then
    Except.ok ⟨false, false, tr⟩
  else
    match cfg.from_addr, cfg.to_addrs with
    | some _, some _ =>
        if transportOk then Except.ok ⟨true, true, { tr with email := now }⟩
        else Except.ok ⟨false, true, tr⟩
    | _, _ => Except.error PyExn.keyError

/-- The request URL `send_dingtalk` builds (`notifier.py` lines 93–101):
the webhook URL, extended — when a secret is configured (non-`None`,
non-empty: Python truthiness) — with `&timestamp={ts}&sign={sig}` where
`sig = quote_plus(base64(HMAC-SHA256(key = secret, msg = ts + "\n" +
secret)))`. The crypto primitives `hmacB64` (key → message → base64 of the
HMAC-SHA256 digest) and `urlEscape` (`quote_plus`) are external library
functions, taken as parameters. -/
def dingtalkUrl (access_token : String) (secret : Option String)
    (timestamp : String) (hmacB64 : String → String → String)
    (urlEscape : String → String) : String :=
  let url := "https://oapi.dingtalk.com/robot/send?access_token=" ++ access_token
  match secret with
  | some s =>
      if s = "" then url
      else url ++ "&timestamp=" ++ timestamp ++ "&sign="
               ++ urlEscape (hmacB64 s (timestamp ++ "\n" ++ s))
  | none => url

/-- Embedding of `WatchdogNotifier.send_dingtalk` (`notifier.py` lines 84–122). The
transport is a function of the URL posted to; a response with `errcode == 0`
is a success, anything else (other codes, missing `errcode`, or a raised
exception) a caught failure. The timestamp is `str(int(time.time() * 1000))`
with time coarsened to integer seconds `now`. -/
def send_dingtalk (cfg : DingtalkCfg) (tr : CooldownTracker) (now : Int)
    (hmacB64 : String → String → String) (urlEscape : String → String)
    (transport : String → HttpOutcome) : Except PyExn SendResult :=
  if !(cfg.enabled && can_send cfg.enabled cfg.cooldown tr.dingtalk now) then
    Except.ok ⟨false, false, tr⟩
  else
    match cfg.access_token with
    | none => Except.error PyExn.keyError
    | some token =>
        let url := dingtalkUrl token cfg.secret (toString (now * 1000)) hmacB64 urlEscape
        match transport url with
        | .resp (some 0) => Except.ok ⟨true, true, { tr with dingtalk := now }⟩
        | .resp _ => Except.ok ⟨false, true, tr⟩
        | .exn => Except.ok ⟨false, true, tr⟩

/-- Embedding of `WatchdogNotifier.send_wecom` (`notifier.py` lines 124–158): a missing
or empty `webhook_key` returns `False` without calling the transport. -/
def send_wecom (cfg : WecomCfg) (tr : CooldownTracker) (now : Int)
    (transport : HttpOutcome) : Except PyExn SendResult :=
  if !(cfg.enabled && can_send cfg.enabled cfg.cooldown tr.wecom now) then
    Except.ok ⟨false, false, tr⟩
  else
    match cfg.webhook_key with
    | none => Except.ok ⟨false, false, tr⟩
    | some k =>
        if k = "" then Except.ok ⟨false, false, tr⟩
        else
          match transport with
          | .resp (some 0) => Except.ok ⟨true, true, { tr with wecom := now }⟩
          | .resp _ => Except.ok ⟨false, true, tr⟩
          | .exn => Except.ok ⟨false, true, tr⟩

/-- The `notify` config section. -/
structure NotifyCfg where
  email : EmailCfg
  dingtalk : DingtalkCfg
  wecom : WecomCfg

/-- What the outside world answers on this `send_alert` invocation, one
outcome per channel (each channel performs at most one transport call). -/
structure TransportEnv where
  email : Bool
  dingtalk : String → HttpOutcome
  wecom : HttpOutcome

/-- Result of `send_alert`: the per-channel results appended to `results`
(in channel order, `none` when the channel's `enabled` gate in `send_alert`
skipped it), the tracker afterwards, and the Python return value — the
function body has no `return` statement, so it is always `None`. -/
structure AlertResult where
  emailResult : Option SendResult
  dingtalkResult : Option SendResult
  wecomResult : Option SendResult
  tracker : CooldownTracker
  retval : Option Bool
  deriving DecidableEq, Repr

/-- The `results` list `send_alert` accumulates. -/
def AlertResult.resultsList (a : AlertResult) : List Bool :=
  (a.emailResult.map SendResult.retval).toList
    ++ (a.dingtalkResult.map SendResult.retval).toList
    ++ (a.wecomResult.map SendResult.retval).toList

/-- Python `any(results)`: the aggregate `send_alert` logs (success line iff at
least one channel returned `True`). -/
def AlertResult.anySuccess (a : AlertResult) : Bool :=
  a.resultsList.any id

/-- The notifier's tracker after a channel was tried (`none`: the channel's
`enabled` gate in `send_alert` skipped it, the tracker is unchanged). -/
def trackerAfter (o : Option SendResult) (tr : CooldownTracker) : CooldownTracker :=
  (o.map SendResult.tracker).getD tr

/-- Embedding of `WatchdogNotifier.send_alert` (`notifier.py` lines 160–179): try each
enabled channel in order (email, dingtalk, wecom), collect their boolean
results, log the aggregate, and fall off the end of the function body. An
uncaught exception inside a channel's send aborts the remaining channels
and propagates. -/
def send_alert (nc : NotifyCfg) (tr : CooldownTracker) (now : Int)
    (hmacB64 : String → String → String) (urlEscape : String → String)
    (env : TransportEnv) : Except PyExn AlertResult :=
  match (if nc.email.enabled then (send_email nc.email tr now env.email).map some
         else Except.ok none) with
  | .error e => .error e
  | .ok er =>
      match (if nc.dingtalk.enabled then
               (send_dingtalk nc.dingtalk (trackerAfter er tr) now hmacB64 urlEscape
                 env.dingtalk).map some
             else Except.ok none) with
      | .error e => .error e
      | .ok dr =>
          match (if nc.wecom.enabled then
                   (send_wecom nc.wecom (trackerAfter dr (trackerAfter er tr)) now
                     env.wecom).map some
                 else Except.ok none) with
          | .error e => .error e
          | .ok wr =>
              Except.ok ⟨er, dr, wr,
                trackerAfter wr (trackerAfter dr (trackerAfter er tr)), none⟩

/-! ## Association-list helper lemmas -/

theorem hasKey_of_getKey (d : Dict) (k : String) (v : JVal)
    (h : getKey d k = some v) : hasKey d k = true := by
  induction d with
  | nil => simp [getKey] at h
  | cons p rest ih =>
      by_cases hp : p.1 = k
      · simp [hasKey, hp]
      · rw [getKey, if_neg (by simp [hp])] at h
        simp [hasKey, hp, ih h]

theorem getKey_append_right (d : Dict) (k : String) (v : JVal)
    (h : hasKey d k = false) : getKey (d ++ [(k, v)]) k = some v := by
  induction d with
  | nil => simp [getKey]
  | cons p rest ih =>
      rw [hasKey, Bool.or_eq_false_iff] at h
      rw [List.cons_append, getKey, if_neg (by simp [h.1]), ih h.2]

theorem getKey_append_ne (d : Dict) (k k' : String) (v : JVal)
    (h : k' ≠ k) : getKey (d ++ [(k', v)]) k = getKey d k := by
  induction d with
  | nil => simp [getKey, h]
  | cons p rest ih =>
      by_cases hp : p.1 = k
      · rw [List.cons_append, getKey, if_pos (by simp [hp]), getKey,
          if_pos (by simp [hp])]
      · rw [List.cons_append, getKey, if_neg (by simp [hp]), getKey,
          if_neg (by simp [hp]), ih]

theorem hasKey_delKey_self (d : Dict) (k : String) :
    hasKey (delKey d k) k = false := by
  induction d with
  | nil => rfl
  | cons p rest ih =>
      by_cases hp : p.1 = k
      · rw [delKey, if_pos (by simp [hp])]
        exact ih
      · rw [delKey, if_neg (by simp [hp]), hasKey]
        simp [hp, ih]

theorem getKey_delKey_ne (d : Dict) (k k0 : String) (h : k ≠ k0) :
    getKey (delKey d k0) k = getKey d k := by
  induction d with
  | nil => rfl
  | cons p rest ih =>
      by_cases hp : p.1 = k0
      · rw [delKey, if_pos (by simp [hp]), getKey,
          if_neg (by simp [hp]; exact fun hh => h hh.symm), ih]
      · by_cases hpk : p.1 = k
        · rw [delKey, if_neg (by simp [hp]), getKey, if_pos (by simp [hpk]),
            getKey, if_pos (by simp [hpk])]
        · rw [delKey, if_neg (by simp [hp]), getKey, if_neg (by simp [hpk]),
            getKey, if_neg (by simp [hpk]), ih]

/-! ## Claim C1 — positive deltas accumulate -/

theorem tick_same_month (r : UsageRecord) (m s b : Int)
    (hm : r.month = m) (hb : r.last_total_bytes = some b) :
    tick r m s =
      { r with used_bytes := r.used_bytes + (if b < s then s - b else 0),
               last_total_bytes := some s } := by
  by_cases h : b < s
  · have hpos : s - b > 0 := by omega
    simp [tick, hm, hb, hpos, h]
  · have hpos : ¬ s - b > 0 := by omega
    simp [tick, hm, hb, hpos, h]

/-- C1: for a record whose `month` matches the current month throughout and
whose `last_total_bytes` is non-null, `used_bytes` after the ticks over a
sample sequence equals its initial value plus the sum of the strictly
positive differences between consecutive samples (the persisted baseline
being the zeroth sample); zero or negative differences contribute
nothing. -/
theorem claim_C1_used_bytes_sums_positive_deltas
    (r : UsageRecord) (m b : Int) (samples : List Int)
    (hm : r.month = m) (hb : r.last_total_bytes = some b) :
    (runTicks r m samples).used_bytes = r.used_bytes + posDeltas b samples := by
  induction samples generalizing r b with
  | nil => simp [runTicks, posDeltas]
  | cons s rest ih =>
      have hstep : runTicks r m (s :: rest) = runTicks (tick r m s) m rest := rfl
      rw [hstep, tick_same_month r m s b hm hb]
      rw [ih ⟨r.month, r.used_bytes + (if b < s then s - b else 0), some s, r.alert_sent⟩
            s hm rfl]
      simp only [posDeltas]
      ring

/-- Witness for C1: baseline 5, samples `[10, 7, 20]`; the positive deltas
`5` and `13` accumulate, the negative delta `-3` is dropped. -/
theorem claim_C1_witness :
    (runTicks ⟨5, 100, some 5, false⟩ 5 [10, 7, 20]).used_bytes =
        100 + posDeltas 5 [10, 7, 20] ∧
      posDeltas 5 [10, 7, 20] = 18 :=
  ⟨claim_C1_used_bytes_sums_positive_deltas ⟨5, 100, some 5, false⟩ 5 5 [10, 7, 20] rfl rfl,
   by decide⟩

/-! ## Claim C2 — restart safety -/

theorem load_data_of_saved (r : UsageRecord) (m : Int) :
    load_data (FileState.found (recordToDict r)) m = recordToDict r := by
  simp [load_data, recordToDict, hasKey]

theorem dictToRecord_recordToDict (r : UsageRecord) :
    dictToRecord (recordToDict r) = some r := by
  obtain ⟨mo, u, l, a⟩ := r
  cases l <;> rfl

/-- C2: running k ticks, persisting the record (`save_data`), reloading it
(`load_data`, then reading the four fields as `main` does), and running the
remaining ticks yields the same `used_bytes` as the uninterrupted run over
the concatenated sample sequence. -/
theorem claim_C2_restart_safety (r : UsageRecord) (m : Int) (l1 l2 : List Int) :
    ∃ r', dictToRecord (load_data (FileState.found (recordToDict (runTicks r m l1))) m)
            = some r' ∧
      (runTicks r' m l2).used_bytes = (runTicks r m (l1 ++ l2)).used_bytes := by
  refine ⟨runTicks r m l1, ?_, ?_⟩
  · rw [load_data_of_saved, dictToRecord_recordToDict]
  · simp [runTicks, List.foldl_append]

/-! ## Claim C3 — month rollover -/

/-- C3: when the record's month differs from the current UTC month, the
tick resets `used_bytes` to 0 and `alert_sent` to `false`, stamps the new
month, re-baselines `last_total_bytes` to the current sample, and adds no
delta — independent of the record's prior state. -/
theorem claim_C3_month_rollover (r : UsageRecord) (m s : Int)
    (h : r.month ≠ m) :
    tick r m s = ⟨m, 0, some s, false⟩ := by
  simp [tick, h]

/-- Witness for C3: a stale April record rolls over in May. -/
theorem claim_C3_witness :
    tick ⟨4, 77, some 3, true⟩ 5 42 = ⟨5, 0, some 42, false⟩ :=
  claim_C3_month_rollover ⟨4, 77, some 3, true⟩ 5 42 (by decide)

/-! ## Claim C4 — exceeded check is not exclusive -/

/-- Counterexample to C4 as stated: at `used_bytes = cap_bytes = 100`,
warn threshold 95 and `alert_sent = false`, the loop body sends the warning
notification on the same tick as the exceeded one — the claim says no Warn
action is produced once `used_bytes ≥ cap_bytes`. -/
theorem claim_C4_counterexample :
    (alertStep 100 100 95 false).warnFired = true ∧
      (alertStep 100 100 95 false).exceededFired = true := by
  decide

/-- C4 (amended): whenever `used_bytes ≥ cap_bytes` the exceeded action
fires, independently of `alert_sent`, and fires again on re-evaluation
(with the updated `alert_sent`) while the condition holds; but it is not
exclusive: the warning check runs first, so a Warn is also sent on such a
tick exactly when `used_bytes ≥ warn_threshold` and `alert_sent` is
false. -/
theorem claim_C4_amended_exceeded_fires_not_exclusively
    (used cap thr : Int) (sent : Bool) (h : cap ≤ used) :
    (alertStep used cap thr sent).exceededFired = true ∧
      (alertStep used cap thr (alertStep used cap thr sent).alertSentAfter).exceededFired
        = true ∧
      (alertStep used cap thr sent).warnFired = (decide (thr ≤ used) && !sent) := by
  refine ⟨?_, ?_, rfl⟩ <;> simp [alertStep, h]

/-- Witness for the amended C4 at `used = cap = 100`, threshold 95,
`alert_sent = false`. -/
theorem claim_C4_amended_witness :
    (alertStep 100 100 95 false).exceededFired = true ∧
      (alertStep 100 100 95 (alertStep 100 100 95 false).alertSentAfter).exceededFired
        = true ∧
      (alertStep 100 100 95 false).warnFired = (decide ((95 : Int) ≤ 100) && !false) :=
  claim_C4_amended_exceeded_fires_not_exclusively 100 100 95 false (by decide)

/-! ## Claim C9 — legacy `used_gb` migration truncates, it does not round -/

/-- Counterexample to C9 as stated: for the legacy float `used_gb =
7 / 2^32` (an exact IEEE-754 double), the product with `1024^3` is `7/4`;
the code's `int()` stores `used_bytes = 1`, while the claim's
`round(used_gb * 1024^3)` is `2`. -/
theorem claim_C9_counterexample :
    getKey (load_data (FileState.found [("used_gb", JVal.jrat (7 / 4294967296))]) 5)
        "used_bytes" = some (JVal.jint 1) ∧
      pyRound ((7 : Rat) / 4294967296 * 1073741824) = 2 := by
  have h1 : ratTrunc ((7 : Rat) / 4294967296 * 1073741824) = 1 := by
    norm_num [ratTrunc]
  constructor
  · simp [load_data, hasKey, getKey, usedGbToBytes, setKey, delKey, h1]
  · norm_num [pyRound]

/-- C9 (amended): loading a record with a legacy float `used_gb` field and
no `used_bytes` field yields `used_bytes = int(used_gb * 1024^3)` — the
product truncated toward zero, not rounded to nearest — with no `used_gb`
key remaining and every other field preserved. -/
theorem claim_C9_amended_migration_truncates (d : Dict) (m : Int) (q : Rat)
    (hgb : getKey d "used_gb" = some (JVal.jrat q))
    (hnb : hasKey d "used_bytes" = false) :
    getKey (load_data (FileState.found d) m) "used_bytes"
        = some (JVal.jint (ratTrunc (q * 1073741824))) ∧
      hasKey (load_data (FileState.found d) m) "used_gb" = false ∧
      ∀ k, k ≠ "used_gb" → k ≠ "used_bytes" →
        getKey (load_data (FileState.found d) m) k = getKey d k := by
  have hk : hasKey d "used_gb" = true := hasKey_of_getKey d _ _ hgb
  have hset : setKey d "used_bytes" (JVal.jint (ratTrunc (q * 1073741824)))
      = d ++ [("used_bytes", JVal.jint (ratTrunc (q * 1073741824)))] := by
    simp [setKey, hnb]
  have hld : load_data (FileState.found d) m
      = delKey (d ++ [("used_bytes", JVal.jint (ratTrunc (q * 1073741824)))]) "used_gb" := by
    simp only [load_data, hk, hnb, Bool.not_false, Bool.and_self, if_true, hgb,
      usedGbToBytes, hset]
  refine ⟨?_, ?_, ?_⟩
  · rw [hld, getKey_delKey_ne _ _ _ (by decide),
      getKey_append_right _ _ _ hnb]
  · rw [hld, hasKey_delKey_self]
  · intro k hk1 hk2
    rw [hld, getKey_delKey_ne _ _ _ hk1, getKey_append_ne _ _ _ _ (Ne.symm hk2)]

/-- Witness for the amended C9: `{"used_gb": 2.5, "month": 3}` loads with
`used_bytes = 2684354560 = 2.5 * 2^30` and the `month` field intact. -/
theorem claim_C9_amended_witness :
    (getKey (load_data (FileState.found
          [("used_gb", JVal.jrat (5 / 2)), ("month", JVal.jint 3)]) 7) "used_bytes"
        = some (JVal.jint (ratTrunc ((5 / 2 : Rat) * 1073741824))) ∧
      hasKey (load_data (FileState.found
          [("used_gb", JVal.jrat (5 / 2)), ("month", JVal.jint 3)]) 7) "used_gb" = false ∧
      ∀ k, k ≠ "used_gb" → k ≠ "used_bytes" →
        getKey (load_data (FileState.found
            [("used_gb", JVal.jrat (5 / 2)), ("month", JVal.jint 3)]) 7) k
          = getKey [("used_gb", JVal.jrat (5 / 2)), ("month", JVal.jint 3)] k) ∧
      ratTrunc ((5 / 2 : Rat) * 1073741824) = 2684354560 :=
  ⟨claim_C9_amended_migration_truncates
      [("used_gb", JVal.jrat (5 / 2)), ("month", JVal.jint 3)] 7 (5 / 2) (by simp [getKey])
      (by simp [hasKey]),
   by norm_num [ratTrunc]⟩

/-! ## Claim C10 — interface sampler total -/

theorem get_total_bytes_go (counters : Counters) (interfaces : List String) (t : Nat) :
    interfaces.foldl
        (fun total iface =>
          match (counters.find? (fun p => p.1 == iface)).map Prod.snd with
          | some c => total + (c.1 + c.2)
          | none => total)
        t
      = t + ((interfaces.filterMap
          (fun i => (counters.find? (fun p => p.1 == i)).map Prod.snd)).map
            (fun c => c.1 + c.2)).sum := by
  induction interfaces generalizing t with
  | nil => simp
  | cons i rest ih =>
      simp only [List.foldl_cons, List.filterMap_cons]
      cases hf : (counters.find? (fun p => p.1 == i)).map Prod.snd with
      | none => simpa [hf] using ih t
      | some c =>
          simp only [hf, List.map_cons, List.sum_cons]
          rw [ih (t + (c.1 + c.2))]
          omega

/-- C10: the sampler's total is the sum of `bytes_recv + bytes_sent` over
exactly those configured interfaces present in the counter map; configured
interfaces absent from the map are skipped, the total is 0 when none are
present, and the function is total (it never raises). -/
theorem claim_C10_total_is_sum_over_present
    (interfaces : List String) (counters : Counters) :
    get_total_bytes interfaces counters
        = ((interfaces.filterMap
            (fun i => (counters.find? (fun p => p.1 == i)).map Prod.snd)).map
              (fun c => c.1 + c.2)).sum ∧
      ((∀ i ∈ interfaces, counters.find? (fun p => p.1 == i) = none) →
        get_total_bytes interfaces counters = 0) := by
  have hmain := get_total_bytes_go counters interfaces 0
  refine ⟨by simpa [get_total_bytes] using hmain, ?_⟩
  intro habs
  have hnil : interfaces.filterMap
      (fun i => (counters.find? (fun p => p.1 == i)).map Prod.snd) = [] := by
    rw [List.filterMap_eq_nil_iff]
    intro i hi
    simp [habs i hi]
  simpa [get_total_bytes, hnil] using hmain

/-- Witness for C10: with the only configured interface absent from the
counter map, the total is 0. -/
theorem claim_C10_witness :
    get_total_bytes ["eth0"] [("lo", (5, 6))] = 0 :=
  (claim_C10_total_is_sum_over_present ["eth0"] [("lo", (5, 6))]).2 (by decide)

/-! ## Characterizations of the channel send functions -/

theorem enabled_and_can_send (e : Bool) (c : Option Int) (l n : Int) :
    (e && can_send e c l n) = can_send e c l n := by
  cases e <;> simp [can_send]

theorem enabled_of_can_send (e : Bool) (c : Option Int) (l n : Int)
    (h : can_send e c l n = true) : e = true := by
  cases e
  · simp [can_send] at h
  · rfl

theorem send_email_eq (cfg : EmailCfg) (tr : CooldownTracker) (now : Int) (ok : Bool)
    (fa : String) (ta : List String)
    (h1 : cfg.from_addr = some fa) (h2 : cfg.to_addrs = some ta) :
    send_email cfg tr now ok =
      Except.ok
        (if can_send cfg.enabled cfg.cooldown tr.email now then
           ⟨ok, true, if ok then { tr with email := now } else tr⟩
         else ⟨false, false, tr⟩) := by
  cases g : can_send cfg.enabled cfg.cooldown tr.email now with
  | false => simp [send_email, g, h1, h2]
  | true =>
      have he := enabled_of_can_send _ _ _ _ g
      rw [he] at g
      cases ok <;> simp [send_email, he, g, h1, h2]

theorem send_dingtalk_eq (cfg : DingtalkCfg) (tr : CooldownTracker) (now : Int)
    (hB : String → String → String) (uE : String → String)
    (transport : String → HttpOutcome) (tok : String)
    (h : cfg.access_token = some tok) :
    send_dingtalk cfg tr now hB uE transport =
      Except.ok
        (if can_send cfg.enabled cfg.cooldown tr.dingtalk now then
           ⟨decide (transport (dingtalkUrl tok cfg.secret (toString (now * 1000)) hB uE)
               = HttpOutcome.resp (some 0)), true,
             if transport (dingtalkUrl tok cfg.secret (toString (now * 1000)) hB uE)
                 = HttpOutcome.resp (some 0)
             then { tr with dingtalk := now } else tr⟩
         else ⟨false, false, tr⟩) := by
  cases g : can_send cfg.enabled cfg.cooldown tr.dingtalk now with
  | false => simp [send_dingtalk, g, h]
  | true =>
      have he := enabled_of_can_send _ _ _ _ g
      rw [he] at g
      cases ht : transport (dingtalkUrl tok cfg.secret (toString (now * 1000)) hB uE) with
      | exn => simp [send_dingtalk, he, g, h, ht]
      | resp ec =>
          cases ec with
          | none => simp [send_dingtalk, he, g, h, ht]
          | some n =>
              by_cases hn : n = 0
              · subst hn; simp [send_dingtalk, he, g, h, ht]
              · simp [send_dingtalk, he, g, h, ht, hn]

theorem send_wecom_eq (cfg : WecomCfg) (tr : CooldownTracker) (now : Int)
    (transport : HttpOutcome) :
    send_wecom cfg tr now transport =
      Except.ok
        (if can_send cfg.enabled cfg.cooldown tr.wecom now
            && !(cfg.webhook_key.getD "" == "") then
           ⟨decide (transport = HttpOutcome.resp (some 0)), true,
             if transport = HttpOutcome.resp (some 0) then { tr with wecom := now } else tr⟩
         else ⟨false, false, tr⟩) := by
  cases g : can_send cfg.enabled cfg.cooldown tr.wecom now with
  | false => cases hk : cfg.webhook_key <;> simp [send_wecom, g, hk]
  | true =>
      have he := enabled_of_can_send _ _ _ _ g
      rw [he] at g
      cases hk : cfg.webhook_key with
      | none => simp [send_wecom, he, g, hk]
      | some k =>
          by_cases hke : k = ""
          · subst hke; simp [send_wecom, he, g, hk]
          · cases ht : transport with
            | exn => simp [send_wecom, he, g, hk, hke, ht]
            | resp ec =>
                cases ec with
                | none => simp [send_wecom, he, g, hk, hke, ht]
                | some n =>
                    by_cases hn : n = 0
                    · subst hn; simp [send_wecom, he, g, hk, hke, ht]
                    · simp [send_wecom, he, g, hk, hke, ht, hn]

/-! ## Claim C8 — DingTalk signed-request mode -/

/-- C8: with a secret configured (non-empty — Python truthiness of
`cfg.get('secret')`), the request URL carries exactly the two extra query
parameters `timestamp` and `sign`, the latter the URL-escaped base64 HMAC-SHA256
of `"{timestamp}\n{secret}"` keyed with the secret; with no secret the URL
carries neither. -/
theorem claim_C8_dingtalk_signing (tok ts s : String) (hs : s ≠ "")
    (hB : String → String → String) (uE : String → String) :
    dingtalkUrl tok (some s) ts hB uE =
        "https://oapi.dingtalk.com/robot/send?access_token=" ++ tok
          ++ "&timestamp=" ++ ts ++ "&sign=" ++ uE (hB s (ts ++ "\n" ++ s)) ∧
      dingtalkUrl tok none ts hB uE =
        "https://oapi.dingtalk.com/robot/send?access_token=" ++ tok ∧
      dingtalkUrl tok (some "") ts hB uE =
        "https://oapi.dingtalk.com/robot/send?access_token=" ++ tok := by
  refine ⟨?_, rfl, rfl⟩
  simp [dingtalkUrl, hs]

/-- Witness for C8 with a concrete token, secret, timestamp and concrete
stand-ins for the HMAC/base64/escape primitives. -/
theorem claim_C8_witness :
    dingtalkUrl "tok" (some "sec") "1700000000000"
          (fun k m => k ++ "|" ++ m) (fun x => "esc(" ++ x ++ ")") =
        "https://oapi.dingtalk.com/robot/send?access_token=" ++ "tok"
          ++ "&timestamp=" ++ "1700000000000" ++ "&sign="
          ++ (fun x => "esc(" ++ x ++ ")")
              ((fun k m => k ++ "|" ++ m) "sec" ("1700000000000" ++ "\n" ++ "sec")) ∧
      dingtalkUrl "tok" none "1700000000000"
          (fun k m => k ++ "|" ++ m) (fun x => "esc(" ++ x ++ ")") =
        "https://oapi.dingtalk.com/robot/send?access_token=" ++ "tok" ∧
      dingtalkUrl "tok" (some "") "1700000000000"
          (fun k m => k ++ "|" ++ m) (fun x => "esc(" ++ x ++ ")") =
        "https://oapi.dingtalk.com/robot/send?access_token=" ++ "tok" :=
  claim_C8_dingtalk_signing "tok" "1700000000000" "sec" (by decide)
    (fun k m => k ++ "|" ++ m) (fun x => "esc(" ++ x ++ ")")

/-! ## Claim C7 — cooldown metering runs from the last successful send -/

/-- Counterexample to C7 as stated: wecom channel, cooldown `C = 10`; a
first attempt at `t = 100` whose transport fails (`errcode = 1`) makes a
transport call but does not update `last_sent_at`, so a second attempt at
`t = 105` — less than `C` seconds later — makes a second transport call:
two attempts less than `C` apart, two transport calls, not one. -/
theorem claim_C7_counterexample :
    send_wecom ⟨true, some 10, some "k"⟩ ⟨0, 0, 0⟩ 100 (HttpOutcome.resp (some 1))
        = Except.ok ⟨false, true, ⟨0, 0, 0⟩⟩ ∧
      send_wecom ⟨true, some 10, some "k"⟩ ⟨0, 0, 0⟩ 105 (HttpOutcome.resp (some 0))
        = Except.ok ⟨true, true, ⟨0, 0, 105⟩⟩ ∧
      (105 : Int) - 100 < 10 := by
  refine ⟨rfl, rfl, by decide⟩

theorem wecom_cooldown_scenario (C t1 t2 : Int) (k : String) (hk : k ≠ "")
    (tr : CooldownTracker) (o1 o2 : HttpOutcome) (hC : 0 ≤ C) (h1 : C ≤ t1 - tr.wecom) :
    ∃ r1, send_wecom ⟨true, some C, some k⟩ tr t1 o1 = Except.ok r1 ∧
      r1.transportCalled = true ∧
      r1.retval = decide (o1 = HttpOutcome.resp (some 0)) ∧
      r1.tracker.wecom = (if r1.retval then t1 else tr.wecom) ∧
      r1.tracker.email = tr.email ∧
      r1.tracker.dingtalk = tr.dingtalk ∧
      (o1 = HttpOutcome.resp (some 0) → t2 - t1 < C →
        send_wecom ⟨true, some C, some k⟩ r1.tracker t2 o2
          = Except.ok ⟨false, false, r1.tracker⟩) ∧
      (C ≤ t2 - t1 →
        ∃ r2, send_wecom ⟨true, some C, some k⟩ r1.tracker t2 o2
            = Except.ok r2 ∧ r2.transportCalled = true) := by
  have hg1 : can_send true (some C) tr.wecom t1 = true := by
    simp [can_send]; omega
  by_cases ho : o1 = HttpOutcome.resp (some 0)
  · subst ho
    refine ⟨⟨true, true, { tr with wecom := t1 }⟩, ?_, rfl, by simp, by simp, rfl, rfl,
      ?_, ?_⟩
    · simp [send_wecom_eq, hg1, hk]
    · intro _ hlt
      have hg2 : can_send true (some C) t1 t2 = false := by
        simp [can_send]; omega
      simp [send_wecom_eq, hg2]
    · intro hge
      have hg2 : can_send true (some C) t1 t2 = true := by
        simp [can_send]; omega
      simp [send_wecom_eq, hg2, hk]
  · refine ⟨⟨false, true, tr⟩, ?_, rfl, by simp [ho], by simp, rfl, rfl,
      ?_, ?_⟩
    · simp [send_wecom_eq, hg1, hk, ho]
    · intro hcontra
      exact absurd hcontra ho
    · intro hge
      have hg2 : can_send true (some C) tr.wecom t2 = true := by
        simp [can_send]; omega
      simp [send_wecom_eq, hg2, hk]

theorem email_cooldown_scenario (C t1 t2 : Int) (fa : String) (ta : List String)
    (tr : CooldownTracker) (o1 o2 : Bool) (hC : 0 ≤ C) (h1 : C ≤ t1 - tr.email) :
    ∃ r1, send_email ⟨true, some C, some fa, some ta⟩ tr t1 o1 = Except.ok r1 ∧
      r1.transportCalled = true ∧
      r1.retval = o1 ∧
      r1.tracker.email = (if r1.retval then t1 else tr.email) ∧
      r1.tracker.dingtalk = tr.dingtalk ∧
      r1.tracker.wecom = tr.wecom ∧
      (o1 = true → t2 - t1 < C →
        send_email ⟨true, some C, some fa, some ta⟩ r1.tracker t2 o2
          = Except.ok ⟨false, false, r1.tracker⟩) ∧
      (C ≤ t2 - t1 →
        ∃ r2, send_email ⟨true, some C, some fa, some ta⟩ r1.tracker t2 o2
            = Except.ok r2 ∧ r2.transportCalled = true) := by
  have hg1 : can_send true (some C) tr.email t1 = true := by
    simp [can_send]; omega
  have heq := fun (t : CooldownTracker) (n : Int) (o : Bool) =>
    send_email_eq ⟨true, some C, some fa, some ta⟩ t n o fa ta rfl rfl
  cases o1 with
  | true =>
      refine ⟨⟨true, true, { tr with email := t1 }⟩, ?_, rfl, rfl, by simp, rfl, rfl,
        ?_, ?_⟩
      · simp [heq, hg1]
      · intro _ hlt
        have hg2 : can_send true (some C) t1 t2 = false := by
          simp [can_send]; omega
        simp [heq, hg2]
      · intro hge
        have hg2 : can_send true (some C) t1 t2 = true := by
          simp [can_send]; omega
        simp [heq, hg2]
  | false =>
      refine ⟨⟨false, true, tr⟩, ?_, rfl, rfl, by simp, rfl, rfl, ?_, ?_⟩
      · simp [heq, hg1]
      · intro hcontra
        exact absurd hcontra (by simp)
      · intro hge
        have hg2 : can_send true (some C) tr.email t2 = true := by
          simp [can_send]; omega
        simp [heq, hg2]

theorem dingtalk_cooldown_scenario (C t1 t2 : Int) (tok : String) (sec : Option String)
    (hB : String → String → String) (uE : String → String)
    (tr : CooldownTracker) (o1 o2 : HttpOutcome) (hC : 0 ≤ C)
    (h1 : C ≤ t1 - tr.dingtalk) :
    ∃ r1, send_dingtalk ⟨true, some C, some tok, sec⟩ tr t1 hB uE (fun _ => o1)
        = Except.ok r1 ∧
      r1.transportCalled = true ∧
      r1.retval = decide (o1 = HttpOutcome.resp (some 0)) ∧
      r1.tracker.dingtalk = (if r1.retval then t1 else tr.dingtalk) ∧
      r1.tracker.email = tr.email ∧
      r1.tracker.wecom = tr.wecom ∧
      (o1 = HttpOutcome.resp (some 0) → t2 - t1 < C →
        send_dingtalk ⟨true, some C, some tok, sec⟩ r1.tracker t2 hB uE (fun _ => o2)
          = Except.ok ⟨false, false, r1.tracker⟩) ∧
      (C ≤ t2 - t1 →
        ∃ r2, send_dingtalk ⟨true, some C, some tok, sec⟩ r1.tracker t2 hB uE (fun _ => o2)
            = Except.ok r2 ∧ r2.transportCalled = true) := by
  have hg1 : can_send true (some C) tr.dingtalk t1 = true := by
    simp [can_send]; omega
  have heq := fun (t : CooldownTracker) (n : Int) (o : HttpOutcome) =>
    send_dingtalk_eq ⟨true, some C, some tok, sec⟩ t n hB uE (fun _ => o) tok rfl
  by_cases ho : o1 = HttpOutcome.resp (some 0)
  · subst ho
    refine ⟨⟨true, true, { tr with dingtalk := t1 }⟩, ?_, rfl, by simp, by simp, rfl, rfl,
      ?_, ?_⟩
    · simp [heq, hg1]
    · intro _ hlt
      have hg2 : can_send true (some C) t1 t2 = false := by
        simp [can_send]; omega
      simp [heq, hg2]
    · intro hge
      have hg2 : can_send true (some C) t1 t2 = true := by
        simp [can_send]; omega
      simp [heq, hg2]
  · refine ⟨⟨false, true, tr⟩, ?_, rfl, by simp [ho], by simp, rfl, rfl, ?_, ?_⟩
    · simp [heq, hg1, ho]
    · intro hcontra
      exact absurd hcontra ho
    · intro hge
      have hg2 : can_send true (some C) tr.dingtalk t2 = true := by
        simp [can_send]; omega
      simp [heq, hg2]

/-- C7 (amended): for every enabled channel with cooldown `C ≥ 0` and keys
present, an attempt past the cooldown always calls the transport, and
`last_sent_at` is updated to the attempt time exactly when that channel's
send succeeds, leaving the other channels' trackers untouched. Hence two
attempts less than `C` apart cause exactly one transport call *when the
first one succeeds* (the second is skipped without error), while after a
failed first call the cooldown is not armed and the second attempt calls
the transport again; attempts at least `C` apart always both call the
transport. Stated for each of the three channels (email, DingTalk,
WeCom). -/
theorem claim_C7_amended_cooldown_from_last_success :
    (∀ (C t1 t2 : Int) (fa : String) (ta : List String) (tr : CooldownTracker)
        (o1 o2 : Bool), 0 ≤ C → C ≤ t1 - tr.email →
      ∃ r1, send_email ⟨true, some C, some fa, some ta⟩ tr t1 o1 = Except.ok r1 ∧
        r1.transportCalled = true ∧
        r1.retval = o1 ∧
        r1.tracker.email = (if r1.retval then t1 else tr.email) ∧
        r1.tracker.dingtalk = tr.dingtalk ∧
        r1.tracker.wecom = tr.wecom ∧
        (o1 = true → t2 - t1 < C →
          send_email ⟨true, some C, some fa, some ta⟩ r1.tracker t2 o2
            = Except.ok ⟨false, false, r1.tracker⟩) ∧
        (C ≤ t2 - t1 →
          ∃ r2, send_email ⟨true, some C, some fa, some ta⟩ r1.tracker t2 o2
              = Except.ok r2 ∧ r2.transportCalled = true)) ∧
    (∀ (C t1 t2 : Int) (tok : String) (sec : Option String)
        (hB : String → String → String) (uE : String → String)
        (tr : CooldownTracker) (o1 o2 : HttpOutcome), 0 ≤ C → C ≤ t1 - tr.dingtalk →
      ∃ r1, send_dingtalk ⟨true, some C, some tok, sec⟩ tr t1 hB uE (fun _ => o1)
          = Except.ok r1 ∧
        r1.transportCalled = true ∧
        r1.retval = decide (o1 = HttpOutcome.resp (some 0)) ∧
        r1.tracker.dingtalk = (if r1.retval then t1 else tr.dingtalk) ∧
        r1.tracker.email = tr.email ∧
        r1.tracker.wecom = tr.wecom ∧
        (o1 = HttpOutcome.resp (some 0) → t2 - t1 < C →
          send_dingtalk ⟨true, some C, some tok, sec⟩ r1.tracker t2 hB uE (fun _ => o2)
            = Except.ok ⟨false, false, r1.tracker⟩) ∧
        (C ≤ t2 - t1 →
          ∃ r2, send_dingtalk ⟨true, some C, some tok, sec⟩ r1.tracker t2 hB uE
                (fun _ => o2)
              = Except.ok r2 ∧ r2.transportCalled = true)) ∧
    (∀ (C t1 t2 : Int) (k : String), k ≠ "" → ∀ (tr : CooldownTracker)
        (o1 o2 : HttpOutcome), 0 ≤ C → C ≤ t1 - tr.wecom →
      ∃ r1, send_wecom ⟨true, some C, some k⟩ tr t1 o1 = Except.ok r1 ∧
        r1.transportCalled = true ∧
        r1.retval = decide (o1 = HttpOutcome.resp (some 0)) ∧
        r1.tracker.wecom = (if r1.retval then t1 else tr.wecom) ∧
        r1.tracker.email = tr.email ∧
        r1.tracker.dingtalk = tr.dingtalk ∧
        (o1 = HttpOutcome.resp (some 0) → t2 - t1 < C →
          send_wecom ⟨true, some C, some k⟩ r1.tracker t2 o2
            = Except.ok ⟨false, false, r1.tracker⟩) ∧
        (C ≤ t2 - t1 →
          ∃ r2, send_wecom ⟨true, some C, some k⟩ r1.tracker t2 o2
              = Except.ok r2 ∧ r2.transportCalled = true)) :=
  ⟨fun C t1 t2 fa ta tr o1 o2 hC h1 =>
      email_cooldown_scenario C t1 t2 fa ta tr o1 o2 hC h1,
   fun C t1 t2 tok sec hB uE tr o1 o2 hC h1 =>
      dingtalk_cooldown_scenario C t1 t2 tok sec hB uE tr o1 o2 hC h1,
   fun C t1 t2 k hk tr o1 o2 hC h1 =>
      wecom_cooldown_scenario C t1 t2 k hk tr o1 o2 hC h1⟩

/-- Witness for the amended C7: email channel, cooldown 10, fresh tracker,
first attempt at `t = 100` succeeding, second at `t = 105`. -/
theorem claim_C7_amended_witness :
    ∃ r1, send_email ⟨true, some 10, some "a@x", some ["b@y"]⟩ ⟨0, 0, 0⟩ 100 true
        = Except.ok r1 ∧
      r1.transportCalled = true ∧
      r1.retval = true ∧
      r1.tracker.email = (if r1.retval then 100 else (⟨0, 0, 0⟩ : CooldownTracker).email) ∧
      r1.tracker.dingtalk = (⟨0, 0, 0⟩ : CooldownTracker).dingtalk ∧
      r1.tracker.wecom = (⟨0, 0, 0⟩ : CooldownTracker).wecom ∧
      (true = true → (105 : Int) - 100 < 10 →
        send_email ⟨true, some 10, some "a@x", some ["b@y"]⟩ r1.tracker 105 true
          = Except.ok ⟨false, false, r1.tracker⟩) ∧
      ((10 : Int) ≤ 105 - 100 →
        ∃ r2, send_email ⟨true, some 10, some "a@x", some ["b@y"]⟩ r1.tracker 105 true
            = Except.ok r2 ∧ r2.transportCalled = true) :=
  claim_C7_amended_cooldown_from_last_success.1 10 100 105 "a@x" ["b@y"] ⟨0, 0, 0⟩
    true true (by decide) (by decide)

/-! ## Claim C5 — the dispatcher logs the OR but returns None -/

theorem anySuccess_mk (er dr wr : Option SendResult) (t : CooldownTracker)
    (rv : Option Bool) :
    (AlertResult.mk er dr wr t rv).anySuccess
      = ((er.map SendResult.retval).getD false
          || (dr.map SendResult.retval).getD false
          || (wr.map SendResult.retval).getD false) := by
  cases er <;> cases dr <;> cases wr <;>
    simp [AlertResult.anySuccess, AlertResult.resultsList, Bool.or_assoc]

/-- Counterexample to C5 as stated: with only the wecom channel enabled and
its transport succeeding, `send_alert` evaluates an aggregate of `true`
(and logs the success line) but returns `None` — not a boolean; the body
of `send_alert` has no `return` statement. -/
theorem claim_C5_counterexample :
    send_alert ⟨⟨false, none, none, none⟩, ⟨false, none, none, none⟩,
          ⟨true, some 10, some "k"⟩⟩
        ⟨0, 0, 0⟩ 5000 (fun _ _ => "") (fun s => s)
        ⟨true, fun _ => HttpOutcome.resp (some 0), HttpOutcome.resp (some 0)⟩
      = Except.ok ⟨none, none, some ⟨true, true, ⟨0, 0, 5000⟩⟩, ⟨0, 0, 5000⟩, none⟩ ∧
      (⟨none, none, some ⟨true, true, ⟨0, 0, 5000⟩⟩, ⟨0, 0, 5000⟩, none⟩
          : AlertResult).anySuccess = true ∧
      (⟨none, none, some ⟨true, true, ⟨0, 0, 5000⟩⟩, ⟨0, 0, 5000⟩, none⟩
          : AlertResult).retval = none :=
  ⟨rfl, rfl, rfl⟩

/-- C5 (amended): whenever `send_alert` returns normally, its Python return
value is `None` (the function has no `return` statement); the aggregate it
computes and logs — `any(results)` — is the logical OR of the per-channel
outcomes it collected. -/
theorem claim_C5_amended_aggregate_is_or_but_returns_none
    (nc : NotifyCfg) (tr : CooldownTracker) (now : Int)
    (hB : String → String → String) (uE : String → String) (env : TransportEnv)
    (a : AlertResult) (h : send_alert nc tr now hB uE env = Except.ok a) :
    a.retval = none ∧
      a.anySuccess = ((a.emailResult.map SendResult.retval).getD false
        || (a.dingtalkResult.map SendResult.retval).getD false
        || (a.wecomResult.map SendResult.retval).getD false) := by
  unfold send_alert at h
  split at h
  · exact absurd h (by simp)
  · split at h
    · exact absurd h (by simp)
    · split at h
      · exact absurd h (by simp)
      · injection h with h2
        subst h2
        exact ⟨rfl, anySuccess_mk _ _ _ _ _⟩

/-- Witness for the amended C5 at the concrete wecom-only configuration. -/
theorem claim_C5_amended_witness :
    (⟨none, none, some ⟨true, true, ⟨0, 0, 5000⟩⟩, ⟨0, 0, 5000⟩, none⟩
        : AlertResult).retval = none ∧
      (⟨none, none, some ⟨true, true, ⟨0, 0, 5000⟩⟩, ⟨0, 0, 5000⟩, none⟩
          : AlertResult).anySuccess =
        (((⟨none, none, some ⟨true, true, ⟨0, 0, 5000⟩⟩, ⟨0, 0, 5000⟩, none⟩
            : AlertResult).emailResult.map SendResult.retval).getD false
          || ((⟨none, none, some ⟨true, true, ⟨0, 0, 5000⟩⟩, ⟨0, 0, 5000⟩, none⟩
              : AlertResult).dingtalkResult.map SendResult.retval).getD false
          || ((⟨none, none, some ⟨true, true, ⟨0, 0, 5000⟩⟩, ⟨0, 0, 5000⟩, none⟩
              : AlertResult).wecomResult.map SendResult.retval).getD false) :=
  claim_C5_amended_aggregate_is_or_but_returns_none
    ⟨⟨false, none, none, none⟩, ⟨false, none, none, none⟩, ⟨true, some 10, some "k"⟩⟩
    ⟨0, 0, 0⟩ 5000 (fun _ _ => "") (fun s => s)
    ⟨true, fun _ => HttpOutcome.resp (some 0), HttpOutcome.resp (some 0)⟩
    ⟨none, none, some ⟨true, true, ⟨0, 0, 5000⟩⟩, ⟨0, 0, 5000⟩, none⟩ rfl

/-! ## Claim C6 — pre-transport exceptions are not isolated -/

/-- Counterexample to C6 as stated: the email channel is enabled but its
config lacks `from_addr`; the `cfg['from_addr']` access raises before the
`try` block, the exception propagates out of `send_alert`, and the enabled
DingTalk channel — which would have succeeded — is never attempted. -/
theorem claim_C6_counterexample :
    send_alert ⟨⟨true, some 10, none, some ["b@y"]⟩, ⟨true, some 10, some "tok", none⟩,
          ⟨false, none, none⟩⟩
        ⟨0, 0, 0⟩ 5000 (fun _ _ => "") (fun s => s)
        ⟨true, fun _ => HttpOutcome.resp (some 0), HttpOutcome.resp (some 0)⟩
      = Except.error PyExn.keyError ∧
      send_dingtalk ⟨true, some 10, some "tok", none⟩ ⟨0, 0, 0⟩ 5000
          (fun _ _ => "") (fun s => s) (fun _ => HttpOutcome.resp (some 0))
        = Except.ok ⟨true, true, ⟨0, 5000, 0⟩⟩ :=
  ⟨rfl, rfl⟩

theorem email_step (cfg : EmailCfg) (tr : CooldownTracker) (now : Int) (ok : Bool)
    (fa : String) (ta : List String)
    (h1 : cfg.enabled = true → cfg.from_addr = some fa)
    (h2 : cfg.enabled = true → cfg.to_addrs = some ta) :
    ∃ er : Option SendResult,
      (if cfg.enabled then (send_email cfg tr now ok).map some else Except.ok none)
        = Except.ok er ∧
      er.isSome = cfg.enabled ∧
      (∀ r, er = some r →
        r.transportCalled = can_send cfg.enabled cfg.cooldown tr.email now) ∧
      (trackerAfter er tr).dingtalk = tr.dingtalk ∧
      (trackerAfter er tr).wecom = tr.wecom := by
  cases hE : cfg.enabled with
  | false =>
      refine ⟨none, rfl, rfl, ?_, rfl, rfl⟩
      intro r hr
      exact absurd hr (by simp)
  | true =>
      refine ⟨some (if can_send true cfg.cooldown tr.email now then
                ⟨ok, true, if ok then { tr with email := now } else tr⟩
              else ⟨false, false, tr⟩), ?_, by simp, ?_, ?_, ?_⟩
      · simp [send_email_eq cfg tr now ok fa ta (h1 hE) (h2 hE), hE, Except.map]
      · intro r hr
        injection hr with hr2
        subst hr2
        cases hg : can_send true cfg.cooldown tr.email now <;> simp [hg]
      · cases hg : can_send true cfg.cooldown tr.email now <;>
          cases ok <;> simp [trackerAfter, hg]
      · cases hg : can_send true cfg.cooldown tr.email now <;>
          cases ok <;> simp [trackerAfter, hg]

theorem dingtalk_step (cfg : DingtalkCfg) (tr : CooldownTracker) (now : Int)
    (hB : String → String → String) (uE : String → String)
    (transport : String → HttpOutcome) (tok : String)
    (h : cfg.enabled = true → cfg.access_token = some tok) :
    ∃ dr : Option SendResult,
      (if cfg.enabled then
         (send_dingtalk cfg tr now hB uE transport).map some
       else Except.ok none) = Except.ok dr ∧
      dr.isSome = cfg.enabled ∧
      (∀ r, dr = some r →
        r.transportCalled = can_send cfg.enabled cfg.cooldown tr.dingtalk now) ∧
      (trackerAfter dr tr).email = tr.email ∧
      (trackerAfter dr tr).wecom = tr.wecom := by
  cases hE : cfg.enabled with
  | false =>
      refine ⟨none, rfl, rfl, ?_, rfl, rfl⟩
      intro r hr
      exact absurd hr (by simp)
  | true =>
      refine ⟨some (if can_send true cfg.cooldown tr.dingtalk now then
                ⟨decide (transport (dingtalkUrl tok cfg.secret (toString (now * 1000)) hB uE)
                    = HttpOutcome.resp (some 0)), true,
                  if transport (dingtalkUrl tok cfg.secret (toString (now * 1000)) hB uE)
                      = HttpOutcome.resp (some 0)
                  then { tr with dingtalk := now } else tr⟩
              else ⟨false, false, tr⟩), ?_, by simp, ?_, ?_, ?_⟩
      · simp [send_dingtalk_eq cfg tr now hB uE transport tok (h hE), hE, Except.map]
      · intro r hr
        injection hr with hr2
        subst hr2
        cases hg : can_send true cfg.cooldown tr.dingtalk now <;> simp [hg]
      · cases hg : can_send true cfg.cooldown tr.dingtalk now <;>
          simp [trackerAfter, hg]
        split <;> rfl
      · cases hg : can_send true cfg.cooldown tr.dingtalk now <;>
          simp [trackerAfter, hg]
        split <;> rfl

theorem wecom_step (cfg : WecomCfg) (tr : CooldownTracker) (now : Int)
    (o : HttpOutcome) :
    ∃ wr : Option SendResult,
      (if cfg.enabled then (send_wecom cfg tr now o).map some else Except.ok none)
        = Except.ok wr ∧
      wr.isSome = cfg.enabled ∧
      (∀ r, wr = some r →
        r.transportCalled = (can_send cfg.enabled cfg.cooldown tr.wecom now
          && !(cfg.webhook_key.getD "" == ""))) := by
  cases hE : cfg.enabled with
  | false =>
      refine ⟨none, rfl, rfl, ?_⟩
      intro r hr
      exact absurd hr (by simp)
  | true =>
      refine ⟨some (if can_send true cfg.cooldown tr.wecom now
                && !(cfg.webhook_key.getD "" == "") then
                ⟨decide (o = HttpOutcome.resp (some 0)), true,
                  if o = HttpOutcome.resp (some 0) then { tr with wecom := now } else tr⟩
              else ⟨false, false, tr⟩), ?_, by simp, ?_⟩
      · simp [send_wecom_eq cfg tr now o, hE, Except.map]
      · intro r hr
        injection hr with hr2
        subst hr2
        cases hg : (can_send true cfg.cooldown tr.wecom now
            && !(cfg.webhook_key.getD "" == "")) <;> simp [hg]

/-- C6 (amended): only *transport-level* failures (anything raised inside a
channel's `try` block — network errors, authentication errors, malformed
responses) are caught and isolated to that channel. Provided every enabled
channel's pre-`try` config keys are present (`from_addr`/`to_addrs` for
email, `access_token` for DingTalk), `send_alert` never propagates an
exception, and whether each enabled channel's transport is attempted depends
only on that channel's own gate (its cooldown and keys) — in particular it
is independent of every other channel's transport outcome. A missing
pre-`try` key, by contrast, aborts the remaining channels (see the
counterexample). -/
theorem claim_C6_amended_transport_failures_isolated
    (nc : NotifyCfg) (tr : CooldownTracker) (now : Int)
    (hB : String → String → String) (uE : String → String) (env : TransportEnv)
    (fa : String) (ta : List String) (tok : String)
    (hfa : nc.email.enabled = true → nc.email.from_addr = some fa)
    (hta : nc.email.enabled = true → nc.email.to_addrs = some ta)
    (htok : nc.dingtalk.enabled = true → nc.dingtalk.access_token = some tok) :
    ∃ a, send_alert nc tr now hB uE env = Except.ok a ∧
      a.emailResult.isSome = nc.email.enabled ∧
      a.dingtalkResult.isSome = nc.dingtalk.enabled ∧
      a.wecomResult.isSome = nc.wecom.enabled ∧
      (∀ r, a.emailResult = some r →
        r.transportCalled = can_send nc.email.enabled nc.email.cooldown tr.email now) ∧
      (∀ r, a.dingtalkResult = some r →
        r.transportCalled
          = can_send nc.dingtalk.enabled nc.dingtalk.cooldown tr.dingtalk now) ∧
      (∀ r, a.wecomResult = some r →
        r.transportCalled = (can_send nc.wecom.enabled nc.wecom.cooldown tr.wecom now
          && !(nc.wecom.webhook_key.getD "" == ""))) ∧
      a.retval = none := by
  obtain ⟨er, he1, he2, he3, he4, he5⟩ := email_step nc.email tr now env.email fa ta hfa hta
  obtain ⟨dr, hd1, hd2, hd3, hd4, hd5⟩ :=
    dingtalk_step nc.dingtalk (trackerAfter er tr) now hB uE env.dingtalk tok htok
  obtain ⟨wr, hw1, hw2, hw3⟩ :=
    wecom_step nc.wecom (trackerAfter dr (trackerAfter er tr)) now env.wecom
  rw [he4] at hd3
  rw [hd5, he5] at hw3
  refine ⟨⟨er, dr, wr, trackerAfter wr (trackerAfter dr (trackerAfter er tr)), none⟩,
    ?_, he2, hd2, hw2, he3, hd3, hw3, rfl⟩
  simp only [send_alert, he1, hd1, hw1]

/-- Witness for the amended C6: all three channels enabled with their keys
present; the email transport fails and the DingTalk request raises inside
the `try` block, yet the wecom channel is still attempted. -/
theorem claim_C6_amended_witness :
    ∃ a, send_alert ⟨⟨true, some 10, some "a@x", some ["b@y"]⟩,
            ⟨true, some 20, some "tok", none⟩, ⟨true, some 30, some "wk"⟩⟩
          ⟨0, 0, 0⟩ 5000 (fun _ _ => "") (fun s => s)
          ⟨false, fun _ => HttpOutcome.exn, HttpOutcome.resp (some 0)⟩
        = Except.ok a ∧
      a.emailResult.isSome = (⟨true, some 10, some "a@x", some ["b@y"]⟩ : EmailCfg).enabled ∧
      a.dingtalkResult.isSome = (⟨true, some 20, some "tok", none⟩ : DingtalkCfg).enabled ∧
      a.wecomResult.isSome = (⟨true, some 30, some "wk"⟩ : WecomCfg).enabled ∧
      (∀ r, a.emailResult = some r →
        r.transportCalled = can_send (⟨true, some 10, some "a@x", some ["b@y"]⟩
            : EmailCfg).enabled (⟨true, some 10, some "a@x", some ["b@y"]⟩
            : EmailCfg).cooldown (⟨0, 0, 0⟩ : CooldownTracker).email 5000) ∧
      (∀ r, a.dingtalkResult = some r →
        r.transportCalled = can_send (⟨true, some 20, some "tok", none⟩
            : DingtalkCfg).enabled (⟨true, some 20, some "tok", none⟩
            : DingtalkCfg).cooldown (⟨0, 0, 0⟩ : CooldownTracker).dingtalk 5000) ∧
      (∀ r, a.wecomResult = some r →
        r.transportCalled = (can_send (⟨true, some 30, some "wk"⟩ : WecomCfg).enabled
            (⟨true, some 30, some "wk"⟩ : WecomCfg).cooldown
            (⟨0, 0, 0⟩ : CooldownTracker).wecom 5000
          && !((⟨true, some 30, some "wk"⟩ : WecomCfg).webhook_key.getD "" == ""))) ∧
      a.retval = none :=
  claim_C6_amended_transport_failures_isolated
    ⟨⟨true, some 10, some "a@x", some ["b@y"]⟩, ⟨true, some 20, some "tok", none⟩,
      ⟨true, some 30, some "wk"⟩⟩
    ⟨0, 0, 0⟩ 5000 (fun _ _ => "") (fun s => s)
    ⟨false, fun _ => HttpOutcome.exn, HttpOutcome.resp (some 0)⟩
    "a@x" ["b@y"] "tok" (fun _ => rfl) (fun _ => rfl) (fun _ => rfl)

end WatchdogHost
